import Mathlib

/- Formal model of the DataGuard anomaly-detection layer: the function
detect_anomalies in src/src/model.py, together with a model of the
scikit-learn IsolationForest interface that it calls.  The wrapper code is
translated directly from the source; the IsolationForest call is modelled
at the level of its documented interface (parameter validation, finiteness
validation, percentile thresholding of per-point scores, and the -1 / 1
label alphabet recorded in the docstring of detect_anomalies itself), with
the per-point score function of the fitted forest kept as a parameter. -/

/-- A Python float value as it appears in a pandas column: either a finite
value (modelled as a rational) or one of the non-finite values NaN, +inf,
-inf. -/
inductive PyFloat where
  | finite (q : ℚ)
  | nan
  | inf
  | ninf
deriving DecidableEq, Repr

/-- Whether the value is finite (neither NaN nor an infinity). -/
def PyFloat.isFiniteVal : PyFloat → Bool
  | PyFloat.finite _ => true
  | _ => false

/-- Exception classes that can surface from a call to detect_anomalies, plus
the two classes named by the specification that do not exist anywhere in the
code (listed so that statements about them can be written down).
invalidParameterError is sklearn.utils InvalidParameterError, raised by the
estimator parameter validation; valueError is the builtin ValueError raised
by the input-array validation on non-finite data. -/
inductive SkError where
  | invalidParameterError
  | valueError
  | insufficientDataError
  | invalidValueError
deriving DecidableEq, Repr

/-- The slice of a pandas dataframe that detect_anomalies reads and writes:
the ventes column, and the two result columns the function may add.  Other
columns (date, magasin) are carried through untouched and are not modelled.
A column that is absent is none. -/
structure DataFrame where
  ventes : List PyFloat
  anomaly_score : Option (List ℚ)
  anomaly : Option (List Bool)
deriving DecidableEq, Repr

/-- Well-formedness of a frame: every present column has one entry per row
(pandas enforces a shared index length across columns). -/
def DataFrame.WF (df : DataFrame) : Prop :=
  (∀ ls, df.anomaly_score = some ls → ls.length = df.ventes.length) ∧
  (∀ fs, df.anomaly = some fs → fs.length = df.ventes.length)

/-- Insert a value into an ascending-sorted list, keeping it sorted. -/
def insertAsc (x : ℚ) : List ℚ → List ℚ
  | [] => [x]
  | y :: ys => if x ≤ y then x :: y :: ys else y :: insertAsc x ys

/-- Ascending insertion sort. -/
def sortAsc (xs : List ℚ) : List ℚ := xs.foldr insertAsc []

/-- Linear-interpolation percentile of a list, the numpy default method:
for q in [0, 100] over n sorted values, the value at fractional rank
h = q / 100 * (n - 1), interpolated linearly between the two neighbouring
order statistics. -/
def percentile (q : ℚ) (xs : List ℚ) : ℚ :=
  let s := sortAsc xs
  let n := s.length
  if n = 0 then 0
  else
    let h : ℚ := q / 100 * ((n : ℚ) - 1)
    let lo : ℕ := h.num.toNat / h.den
    let hi : ℕ := min (lo + 1) (n - 1)
    let a := s.getD lo 0
    let b := s.getD hi 0
    a + (h - (lo : ℚ)) * (b - a)

/-- The per-observation score function of a fitted IsolationForest (its
score_samples): given the seed and the training data, each point receives a
score, lower meaning more abnormal.  The forest internals are library code
(scikit-learn), not part of this repository, so the score function is a
parameter of the model; the theorems below hold for an arbitrary one. -/
abbrev ScoreFn := ℕ → List PyFloat → PyFloat → ℚ

/-- The scores of all training points under the fitted model. -/
def runScores (score : ScoreFn) (seed : ℕ) (xs : List PyFloat) : List ℚ :=
  xs.map (score seed xs)

/-- The decision offset of the fitted model: the percentile of the training
scores at 100 * contamination (the documented offset rule of
IsolationForest for a float contamination). -/
def runOffset (score : ScoreFn) (seed : ℕ) (c : ℚ) (xs : List PyFloat) : ℚ :=
  percentile (100 * c) (runScores score seed xs)

/-- Model of IsolationForest(contamination=c, random_state=seed)
.fit_predict(X) as called from detect_anomalies:
1. parameter validation first: a float contamination must lie in (0, 1/2],
   otherwise InvalidParameterError, before any computation on the data;
2. input-array validation: any non-finite value raises ValueError;
3. otherwise each point is labelled -1 (anomalous) when its score is
   strictly below the offset, else 1 (normal) - the label alphabet the
   docstring of detect_anomalies records as "-1 for anomaly, 1 for
   normal". -/
def fit_predict (score : ScoreFn) (seed : ℕ) (c : ℚ) (xs : List PyFloat) :
    Except SkError (List ℚ) :=
  if ¬ (0 < c ∧ c ≤ 1 / 2) then Except.error SkError.invalidParameterError
  else if xs.any (fun x => ! x.isFiniteVal) then Except.error SkError.valueError
  else Except.ok ((runScores score seed xs).map
    (fun s => if s < runOffset score seed c xs then -1 else 1))

/-- Model of detect_anomalies (src/src/model.py):
an empty frame is returned as is; otherwise the fit_predict labels are
written into the anomaly_score column and the anomaly column is their image
under the source lambda (True exactly on -1).  The random seed is the
constant 42 from the source (random_state=42).  Pandas column assignment
mutates the frame in place, so the returned frame is also the state of the
caller frame after the call. -/
def detect_anomalies (score : ScoreFn) (df : DataFrame) (c : ℚ) :
    Except SkError DataFrame :=
  if df.ventes.isEmpty then Except.ok df
  else
    match fit_predict score 42 c df.ventes with
    | Except.error e => Except.error e
    | Except.ok labels =>
        Except.ok (DataFrame.mk df.ventes (some labels)
          (some (labels.map (fun x => x == -1))))

/-- One run of detect_anomalies with outcome out.  The code fixes
random_state, so a run is a pure evaluation; the relation form lets
determinism across runs be stated. -/
def DetectRun (score : ScoreFn) (df : DataFrame) (c : ℚ)
    (out : Except SkError DataFrame) : Prop :=
  detect_anomalies score df c = out

/-- A concrete stand-in score function, used only to evaluate the model on
concrete inputs (the true forest scores are scikit-learn internals; no
verdict below depends on the particular values a score function returns). -/
def negScore : ScoreFn := fun _ _ x =>
  match x with
  | PyFloat.finite q => -q
  | _ => 0

/-- Two-row example frame, as loaded (no result columns yet). -/
def exDf2 : DataFrame := DataFrame.mk [PyFloat.finite 100, PyFloat.finite 200] none none

/-- The state of exDf2 after a run with the stand-in score function. -/
def exOut2 : DataFrame :=
  DataFrame.mk [PyFloat.finite 100, PyFloat.finite 200]
    (some [1, -1]) (some [false, true])

instance : DecidableEq (Except SkError DataFrame) := fun a b =>
  match a, b with
  | Except.ok x, Except.ok y =>
      if h : x = y then isTrue (by rw [h]) else isFalse (by simp [h])
  | Except.error x, Except.error y =>
      if h : x = y then isTrue (by rw [h]) else isFalse (by simp [h])
  | Except.ok _, Except.error _ => isFalse (by simp)
  | Except.error _, Except.ok _ => isFalse (by simp)

/-- Evaluating percentile on a one-element list gives that element back:
the fractional rank is 0 and the interpolation is degenerate. -/
theorem percentile_singleton (q s : ℚ) : percentile q [s] = s := by
  norm_num [percentile, sortAsc, insertAsc]

/-- Shape of a successful fit_predict call: the contamination was valid, all
inputs finite, and the labels are the thresholded scores. -/
theorem fit_predict_ok_elim {score : ScoreFn} {seed : ℕ} {c : ℚ}
    {xs : List PyFloat} {ls : List ℚ}
    (h : fit_predict score seed c xs = Except.ok ls) :
    (0 < c ∧ c ≤ 1 / 2) ∧ (∀ x ∈ xs, x.isFiniteVal = true) ∧
    ls = (runScores score seed xs).map
      (fun s => if s < runOffset score seed c xs then -1 else 1) := by
  unfold fit_predict at h
  split at h
  · exact Except.noConfusion h
  · split at h
    · exact Except.noConfusion h
    · rename_i hc hfin
      injection h with h
      refine ⟨not_not.mp hc, ?_, h.symm⟩
      intro x hx
      rcases Bool.eq_false_or_eq_true x.isFiniteVal with hb | hb
      · exact hb
      · exact absurd (List.any_eq_true.mpr ⟨x, hx, by simp [hb]⟩) hfin

/-- Every label a successful fit_predict returns is -1 or 1. -/
theorem fit_predict_labels {score : ScoreFn} {seed : ℕ} {c : ℚ}
    {xs : List PyFloat} {ls : List ℚ}
    (h : fit_predict score seed c xs = Except.ok ls) :
    ∀ l ∈ ls, l = -1 ∨ l = 1 := by
  obtain ⟨-, -, hls⟩ := fit_predict_ok_elim h
  subst hls
  intro l hl
  obtain ⟨s, -, hs⟩ := List.mem_map.mp hl
  by_cases hlt : s < runOffset score seed c xs
  · left; rw [← hs]; simp [hlt]
  · right; rw [← hs]; simp [hlt]

/-- fit_predict returns one label per input point. -/
theorem fit_predict_length {score : ScoreFn} {seed : ℕ} {c : ℚ}
    {xs : List PyFloat} {ls : List ℚ}
    (h : fit_predict score seed c xs = Except.ok ls) :
    ls.length = xs.length := by
  obtain ⟨-, -, hls⟩ := fit_predict_ok_elim h
  subst hls
  simp [runScores]

/-- fit_predict can only fail with the parameter or the value error. -/
theorem fit_predict_not_insufficient (score : ScoreFn) (seed : ℕ) (c : ℚ)
    (xs : List PyFloat) :
    fit_predict score seed c xs ≠ Except.error SkError.insufficientDataError := by
  unfold fit_predict
  split
  · intro h; injection h with h; exact SkError.noConfusion h
  · split
    · intro h; injection h with h; exact SkError.noConfusion h
    · intro h; exact Except.noConfusion h

/-- Shape of a successful detect_anomalies call: either the frame was empty
and is returned untouched, or the two result columns hold the fit_predict
labels and their image under the source lambda. -/
theorem detect_ok_elim {score : ScoreFn} {df : DataFrame} {c : ℚ}
    {out : DataFrame}
    (h : detect_anomalies score df c = Except.ok out) :
    (df.ventes = [] ∧ out = df) ∨
    (df.ventes ≠ [] ∧ ∃ ls, fit_predict score 42 c df.ventes = Except.ok ls ∧
      out = DataFrame.mk df.ventes (some ls)
        (some (ls.map (fun x => x == -1)))) := by
  unfold detect_anomalies at h
  split at h
  · rename_i he
    left
    refine ⟨by simpa using he, ?_⟩
    injection h with h
    exact h.symm
  · rename_i he
    right
    refine ⟨by simpa using he, ?_⟩
    split at h
    · exact Except.noConfusion h
    · rename_i ls hfp
      injection h with h
      exact ⟨ls, hfp, h.symm⟩

/-- Concrete evaluation of the model on the two-row frame with the stand-in
score function: the labels are 1 and -1 and the flags false and true. -/
theorem detect_exDf2_eval :
    detect_anomalies negScore exDf2 (1 / 20) = Except.ok exOut2 := by
  norm_num [detect_anomalies, fit_predict, runScores, runOffset, percentile,
    sortAsc, insertAsc, negScore, PyFloat.isFiniteVal, Int.toNat, exDf2, exOut2]

/-- Claim C6: for the empty dataset, detect_anomalies returns the empty
result and raises no error (the guard if df.empty returns df as is). -/
theorem detect_empty_frame (score : ScoreFn) (df : DataFrame) (c : ℚ)
    (h : df.ventes = []) : detect_anomalies score df c = Except.ok df := by
  unfold detect_anomalies
  simp [h]

/-- Witness for C6 at a concrete empty frame. -/
theorem detect_empty_frame_witness :
    detect_anomalies negScore (DataFrame.mk [] none none) (1 / 20) =
      Except.ok (DataFrame.mk [] none none) :=
  detect_empty_frame negScore (DataFrame.mk [] none none) (1 / 20) rfl

/-- Claim C5: runs of the detection operation on the same score function
(the seed is the constant 42 in the source), frame and contamination have
identical outcomes - all scores and all flags coincide. -/
theorem detect_run_deterministic (score : ScoreFn) (df : DataFrame) (c : ℚ)
    (o1 o2 : Except SkError DataFrame)
    (h1 : DetectRun score df c o1) (h2 : DetectRun score df c o2) : o1 = o2 :=
  h1.symm.trans h2

/-- Witness for C5: two concrete runs on the two-row frame agree. -/
theorem detect_run_deterministic_witness :
    (Except.ok exOut2 : Except SkError DataFrame) = Except.ok exOut2 :=
  detect_run_deterministic negScore exDf2 (1 / 20)
    (Except.ok exOut2) (Except.ok exOut2) detect_exDf2_eval detect_exDf2_eval

/-- Claim C8 as amended: for every non-empty dataset and contamination
outside (0, 1/2], the call fails with InvalidParameterError, for any score
function (the rejection precedes all scoring); the empty dataset, however,
short-circuits before validation (see the counterexample). -/
theorem detect_invalid_contamination (score : ScoreFn) (df : DataFrame)
    (c : ℚ) (hne : df.ventes ≠ []) (hc : ¬ (0 < c ∧ c ≤ 1 / 2)) :
    detect_anomalies score df c = Except.error SkError.invalidParameterError := by
  have he : df.ventes.isEmpty = false := by simpa using hne
  have hfp : fit_predict score 42 c df.ventes =
      Except.error SkError.invalidParameterError := by
    unfold fit_predict
    rw [if_pos hc]
  unfold detect_anomalies
  simp [he, hfp]

/-- Witness for C8 as amended, at contamination 3/5 = 0.6. -/
theorem detect_invalid_contamination_witness :
    detect_anomalies negScore (DataFrame.mk [PyFloat.finite 5] none none)
      (3 / 5) = Except.error SkError.invalidParameterError :=
  detect_invalid_contamination negScore
    (DataFrame.mk [PyFloat.finite 5] none none) (3 / 5) (by simp) (by norm_num)

/-- Counterexample to C8 as stated: with contamination 0.6 and the empty
dataset the call does not fail at all - the empty guard returns before the
parameter is ever validated. -/
theorem detect_invalid_contamination_empty_cex :
    detect_anomalies negScore (DataFrame.mk [] none none) (3 / 5) =
      Except.ok (DataFrame.mk [] none none) := by
  simp [detect_anomalies]

/-- Claim C9 as amended: a non-finite observation value makes the whole
call fail with the builtin ValueError of the array validation (for valid
contamination, which is checked first); no value is silently dropped.  The
specification calls this error InvalidValueError, a class that exists
nowhere in the code. -/
theorem detect_nonfinite_rejected (score : ScoreFn) (df : DataFrame) (c : ℚ)
    (hc1 : 0 < c) (hc2 : c ≤ 1 / 2) (x : PyFloat) (hx : x ∈ df.ventes)
    (hxf : x.isFiniteVal = false) :
    detect_anomalies score df c = Except.error SkError.valueError := by
  have hne : df.ventes ≠ [] := by
    intro h
    rw [h] at hx
    exact (List.not_mem_nil x) hx
  have he : df.ventes.isEmpty = false := by simpa using hne
  have hany : df.ventes.any (fun y => ! y.isFiniteVal) = true :=
    List.any_eq_true.mpr ⟨x, hx, by simp [hxf]⟩
  have hfp : fit_predict score 42 c df.ventes =
      Except.error SkError.valueError := by
    unfold fit_predict
    rw [if_neg (not_not.mpr ⟨hc1, hc2⟩), if_pos hany]
  unfold detect_anomalies
  simp [he, hfp]

/-- Witness for C9 as amended, at a frame containing NaN. -/
theorem detect_nonfinite_rejected_witness :
    detect_anomalies negScore
      (DataFrame.mk [PyFloat.nan, PyFloat.finite 1] none none) (1 / 20) =
      Except.error SkError.valueError :=
  detect_nonfinite_rejected negScore
    (DataFrame.mk [PyFloat.nan, PyFloat.finite 1] none none) (1 / 20)
    (by norm_num) (by norm_num) PyFloat.nan (by simp) rfl

/-- Counterexample to C9 as stated: the NaN-containing call is rejected
with ValueError, which is not the InvalidValueError the claim names. -/
theorem detect_nonfinite_not_invalidvalue_cex :
    detect_anomalies negScore
      (DataFrame.mk [PyFloat.nan, PyFloat.finite 1] none none) (1 / 20) =
      Except.error SkError.valueError ∧
    SkError.valueError ≠ SkError.invalidValueError := by
  constructor
  · norm_num [detect_anomalies, fit_predict, PyFloat.isFiniteVal]
  · intro h
    exact SkError.noConfusion h

/-- Claim C7 as amended: a one-observation dataset is not rejected - the
call returns the row labelled 1 (normal, flag false) for every score
function, because the offset of a single score is that score itself; and no
call of detect_anomalies can fail with InsufficientDataError, a class that
exists nowhere in the code. -/
theorem detect_single_row_ok (score : ScoreFn) (x : PyFloat)
    (a : Option (List ℚ)) (b : Option (List Bool)) (c : ℚ)
    (hx : x.isFiniteVal = true) (hc1 : 0 < c) (hc2 : c ≤ 1 / 2) :
    detect_anomalies score (DataFrame.mk [x] a b) c =
      Except.ok (DataFrame.mk [x] (some [1]) (some [false])) ∧
    ∀ (df : DataFrame) (q : ℚ),
      detect_anomalies score df q ≠ Except.error SkError.insufficientDataError := by
  constructor
  · have hfp : fit_predict score 42 c [x] = Except.ok [1] := by
      unfold fit_predict
      rw [if_neg (not_not.mpr ⟨hc1, hc2⟩)]
      have hany : [x].any (fun y => ! y.isFiniteVal) = false := by simp [hx]
      rw [hany]
      simp [runScores, runOffset, percentile_singleton]
    unfold detect_anomalies
    simp [hfp]
    norm_num
  · intro df q h
    unfold detect_anomalies at h
    split at h
    · exact Except.noConfusion h
    · split at h
      · rename_i e hfp2
        injection h with h
        rw [h] at hfp2
        exact fit_predict_not_insufficient score 42 q df.ventes hfp2
      · exact Except.noConfusion h

/-- Witness for C7 as amended at a concrete one-row frame. -/
theorem detect_single_row_ok_witness :
    (detect_anomalies negScore (DataFrame.mk [PyFloat.finite 100] none none)
        (1 / 20) =
      Except.ok (DataFrame.mk [PyFloat.finite 100] (some [1]) (some [false]))) ∧
    ∀ (df : DataFrame) (q : ℚ),
      detect_anomalies negScore df q ≠ Except.error SkError.insufficientDataError :=
  detect_single_row_ok negScore (PyFloat.finite 100) none none (1 / 20)
    rfl (by norm_num) (by norm_num)

/-- Counterexample to C7 as stated: the size-1 dataset produces a normal
result, not an InsufficientDataError failure. -/
theorem detect_size_one_no_error_cex :
    detect_anomalies negScore (DataFrame.mk [PyFloat.finite 100] none none)
        (1 / 20) =
      Except.ok (DataFrame.mk [PyFloat.finite 100] (some [1]) (some [false])) ∧
    detect_anomalies negScore (DataFrame.mk [PyFloat.finite 100] none none)
        (1 / 20) ≠ Except.error SkError.insufficientDataError := by
  have heval : detect_anomalies negScore
      (DataFrame.mk [PyFloat.finite 100] none none) (1 / 20) =
      Except.ok (DataFrame.mk [PyFloat.finite 100] (some [1]) (some [false])) := by
    norm_num [detect_anomalies, fit_predict, runScores, runOffset, percentile,
      sortAsc, insertAsc, negScore, PyFloat.isFiniteVal, Int.toNat]
  refine ⟨heval, ?_⟩
  rw [heval]
  intro h
  exact Except.noConfusion h

/-- Claim C1 as amended: the per-observation values the detection operation
writes into the anomaly_score column are the labels -1 (anomalous) and
1 (normal), never a fractional score in [0, 1]; in particular no score
equals 1/2, also for datasets of the minimum size 2. -/
theorem detect_scores_are_labels (score : ScoreFn) (df : DataFrame) (c : ℚ)
    (out : DataFrame) (ls : List ℚ) (hne : df.ventes ≠ [])
    (h : detect_anomalies score df c = Except.ok out)
    (hls : out.anomaly_score = some ls) :
    ∀ l ∈ ls, (l = -1 ∨ l = 1) ∧ l ≠ 1 / 2 := by
  rcases detect_ok_elim h with ⟨he, -⟩ | ⟨-, ls0, hfp, hout⟩
  · exact absurd he hne
  · subst hout
    simp only [Option.some.injEq] at hls
    subst hls
    intro l hl
    rcases fit_predict_labels hfp l hl with h1 | h1
    · exact ⟨Or.inl h1, by rw [h1]; norm_num⟩
    · exact ⟨Or.inr h1, by rw [h1]; norm_num⟩

/-- Witness for C1 as amended: the first score of the two-row run is the
label 1, which is not 1/2. -/
theorem detect_scores_are_labels_witness :
    ((1 : ℚ) = -1 ∨ (1 : ℚ) = 1) ∧ (1 : ℚ) ≠ 1 / 2 :=
  detect_scores_are_labels negScore exDf2 (1 / 20) exOut2 [1, -1]
    (by simp [exDf2]) detect_exDf2_eval rfl 1 (by simp)

/-- Counterexample to C1 as stated: the two-observation run yields the
scores 1 and -1; they are not all equal to 1/2, and -1 lies outside
[0, 1]. -/
theorem detect_n2_scores_cex :
    detect_anomalies negScore exDf2 (1 / 20) = Except.ok exOut2 ∧
    exOut2.anomaly_score = some [1, -1] ∧
    ¬ ((1 : ℚ) = 1 / 2 ∧ (-1 : ℚ) = 1 / 2) ∧
    ¬ (0 ≤ (-1 : ℚ) ∧ (-1 : ℚ) ≤ 1) :=
  ⟨detect_exDf2_eval, rfl, by norm_num, by norm_num⟩

/-- Claim C10: a successful run on a non-empty dataset carries both result
columns; the anomaly_score values are only -1 and 1, and the anomaly flag
column is the image of the scores under the source lambda, true exactly on
the value -1. -/
theorem detect_flag_iff_label (score : ScoreFn) (df : DataFrame) (c : ℚ)
    (out : DataFrame) (hne : df.ventes ≠ [])
    (h : detect_anomalies score df c = Except.ok out) :
    ∃ ls, out.anomaly_score = some ls ∧
      out.anomaly = some (ls.map (fun x => x == -1)) ∧
      ∀ l ∈ ls, l = -1 ∨ l = 1 := by
  rcases detect_ok_elim h with ⟨he, -⟩ | ⟨-, ls, hfp, hout⟩
  · exact absurd he hne
  · subst hout
    exact ⟨ls, rfl, rfl, fit_predict_labels hfp⟩

/-- Witness for C10 at the two-row run. -/
theorem detect_flag_iff_label_witness :
    ∃ ls, exOut2.anomaly_score = some ls ∧
      exOut2.anomaly = some (ls.map (fun x => x == -1)) ∧
      ∀ l ∈ ls, l = -1 ∨ l = 1 :=
  detect_flag_iff_label negScore exDf2 (1 / 20) exOut2
    (by simp [exDf2]) detect_exDf2_eval

/-- Claim C4 as amended: the call never changes the observation values (the
ventes column comes back unchanged, in order), but it does mutate the
caller frame, setting the anomaly_score and anomaly columns (pandas column
assignment is in place and the source returns the same frame object);
re-running on the returned frame reproduces that frame exactly. -/
theorem detect_mutates_only_result_columns (score : ScoreFn)
    (df : DataFrame) (c : ℚ) (out : DataFrame)
    (h : detect_anomalies score df c = Except.ok out) :
    out.ventes = df.ventes ∧
    (df.ventes ≠ [] → out.anomaly_score.isSome ∧ out.anomaly.isSome) ∧
    detect_anomalies score out c = Except.ok out := by
  rcases detect_ok_elim h with ⟨he, hout⟩ | ⟨hne, ls, hfp, hout⟩
  · subst hout
    refine ⟨rfl, fun hn => absurd he hn, ?_⟩
    unfold detect_anomalies
    simp [he]
  · subst hout
    refine ⟨rfl, fun _ => ⟨rfl, rfl⟩, ?_⟩
    have he : df.ventes.isEmpty = false := by simpa using hne
    unfold detect_anomalies
    simp [he, hfp]

/-- Witness for C4 as amended at the two-row run. -/
theorem detect_mutates_only_result_columns_witness :
    exOut2.ventes = exDf2.ventes ∧
    (exDf2.ventes ≠ [] → exOut2.anomaly_score.isSome ∧ exOut2.anomaly.isSome) ∧
    detect_anomalies negScore exOut2 (1 / 20) = Except.ok exOut2 :=
  detect_mutates_only_result_columns negScore exDf2 (1 / 20) exOut2
    detect_exDf2_eval

/-- Counterexample to C4 as stated: after the two-row call the caller frame
is exOut2, which differs from the input frame exDf2 - the call added the
two result columns in place. -/
theorem detect_mutation_cex :
    detect_anomalies negScore exDf2 (1 / 20) = Except.ok exOut2 ∧
    exOut2 ≠ exDf2 :=
  ⟨detect_exDf2_eval, by simp [exOut2, exDf2]⟩

/-- Claim C3: on a well-formed input frame, a successful run returns the
observation column unchanged (same length, same order), the output frame is
well formed (one result entry per input row), and the i-th label is the
thresholded score of the i-th input observation. -/
theorem detect_preserves_order (score : ScoreFn) (df : DataFrame) (c : ℚ)
    (out : DataFrame) (hwf : df.WF)
    (h : detect_anomalies score df c = Except.ok out) :
    out.ventes = df.ventes ∧ out.WF ∧
    ∀ ls, out.anomaly_score = some ls →
      ∀ i : ℕ, ls.get? i = (df.ventes.get? i).map (fun x =>
        if score 42 df.ventes x < runOffset score 42 c df.ventes
        then -1 else 1) := by
  rcases detect_ok_elim h with ⟨he, hout⟩ | ⟨hne, ls, hfp, hout⟩
  · subst hout
    refine ⟨rfl, hwf, ?_⟩
    intro ls hls i
    have hlen := hwf.1 ls hls
    rw [he] at hlen
    simp only [List.length_nil, List.length_eq_zero] at hlen
    subst hlen
    simp [he]
  · subst hout
    obtain ⟨-, -, hls0⟩ := fit_predict_ok_elim hfp
    subst hls0
    refine ⟨rfl, ⟨?_, ?_⟩, ?_⟩
    · intro ls1 hls1
      simp only [Option.some.injEq] at hls1
      subst hls1
      simp [runScores]
    · intro fs hfs
      simp only [Option.some.injEq] at hfs
      subst hfs
      simp [runScores]
    · intro ls1 hls1 i
      simp only [Option.some.injEq] at hls1
      subst hls1
      simp only [runScores, List.map_map, List.get?_eq_getElem?, List.getElem?_map]
      rfl

/-- Witness for C3 at the two-row run. -/
theorem detect_preserves_order_witness :
    exOut2.ventes = exDf2.ventes ∧ exOut2.WF ∧
    ∀ ls, exOut2.anomaly_score = some ls →
      ∀ i : ℕ, ls.get? i = (exDf2.ventes.get? i).map (fun x =>
        if negScore 42 exDf2.ventes x < runOffset negScore 42 (1 / 20) exDf2.ventes
        then -1 else 1) :=
  detect_preserves_order negScore exDf2 (1 / 20) exOut2
    (by constructor <;> intro _ h <;> simp [exDf2] at h) detect_exDf2_eval

/-- Claim C2 as amended: the number of flagged observations equals the
number of observations whose model score lies strictly below the run
offset, the linearly-interpolated contamination-quantile of the scores.
This count is not in general round(contamination * n), even when the scores
have no ties at all (see the counterexample with n = 24, c = 1/10). -/
theorem detect_flag_count (score : ScoreFn) (df : DataFrame) (c : ℚ)
    (out : DataFrame) (fs : List Bool) (hne : df.ventes ≠ [])
    (h : detect_anomalies score df c = Except.ok out)
    (hfs : out.anomaly = some fs) :
    fs.count true = (runScores score 42 df.ventes).countP
      (fun s => decide (s < runOffset score 42 c df.ventes)) := by
  rcases detect_ok_elim h with ⟨he, -⟩ | ⟨-, ls, hfp, hout⟩
  · exact absurd he hne
  · subst hout
    simp only [Option.some.injEq] at hfs
    subst hfs
    obtain ⟨-, -, hls⟩ := fit_predict_ok_elim hfp
    subst hls
    rw [List.count_eq_countP, List.countP_map, List.countP_map]
    apply List.countP_congr
    intro s hs
    by_cases hlt : s < runOffset score 42 c df.ventes
    · simp [hlt]
    · simp [hlt]
      norm_num

/-- The 24 observation values 1, 2, ..., 24 used by the C2 evaluation. -/
def exVals24 : List PyFloat :=
  [PyFloat.finite 1, PyFloat.finite 2, PyFloat.finite 3, PyFloat.finite 4,
   PyFloat.finite 5, PyFloat.finite 6, PyFloat.finite 7, PyFloat.finite 8,
   PyFloat.finite 9, PyFloat.finite 10, PyFloat.finite 11, PyFloat.finite 12,
   PyFloat.finite 13, PyFloat.finite 14, PyFloat.finite 15, PyFloat.finite 16,
   PyFloat.finite 17, PyFloat.finite 18, PyFloat.finite 19, PyFloat.finite 20,
   PyFloat.finite 21, PyFloat.finite 22, PyFloat.finite 23, PyFloat.finite 24]

/-- The 24-row example frame. -/
def exDf24 : DataFrame := DataFrame.mk exVals24 none none

/-- Labels of the 24-row run under the stand-in score function: the offset
is the 10-percentile -217/10 of the scores -1, ..., -24, so exactly the
three scores below it (those of the values 22, 23, 24) are labelled -1. -/
def exLabels24 : List ℚ :=
  [1, 1, 1, 1, 1, 1, 1, 1, 1, 1, 1, 1, 1, 1, 1, 1, 1, 1, 1, 1, 1, -1, -1, -1]

/-- Flags of the 24-row run. -/
def exFlags24 : List Bool :=
  [false, false, false, false, false, false, false, false, false, false,
   false, false, false, false, false, false, false, false, false, false,
   false, true, true, true]

/-- Output frame of the 24-row run. -/
def exOut24 : DataFrame := DataFrame.mk exVals24 (some exLabels24) (some exFlags24)

/-- Counterexample to C2 as stated: on 24 pairwise-distinct scores (no ties
anywhere, in particular none at the cutoff) with contamination 1/10 the run
flags 3 observations, while round(contamination * n) = round(2.4) = 2. -/
theorem detect_flag_count_cex :
    detect_anomalies negScore exDf24 (1 / 10) = Except.ok exOut24 ∧
    exFlags24.count true = 3 ∧
    round ((1 / 10 : ℚ) * 24) = 2 ∧
    (3 : ℤ) ≠ 2 ∧
    (runScores negScore 42 exVals24).Nodup := by
  refine ⟨?_, by decide, by rw [round_eq]; norm_num, by decide, ?_⟩
  · norm_num [detect_anomalies, fit_predict, runScores, runOffset, percentile,
      sortAsc, insertAsc, negScore, PyFloat.isFiniteVal, Int.toNat,
      exDf24, exOut24, exVals24, exLabels24, exFlags24]
  · norm_num [runScores, negScore, exVals24, List.nodup_cons]

/-- Witness for C2 as amended at the 24-row run. -/
theorem detect_flag_count_witness :
    exFlags24.count true = (runScores negScore 42 exDf24.ventes).countP
      (fun s => decide (s < runOffset negScore 42 (1 / 10) exDf24.ventes)) :=
  detect_flag_count negScore exDf24 (1 / 10) exOut24 exFlags24
    (by simp [exDf24, exVals24])
    (by norm_num [detect_anomalies, fit_predict, runScores, runOffset,
      percentile, sortAsc, insertAsc, negScore, PyFloat.isFiniteVal,
      Int.toNat, exDf24, exOut24, exVals24, exLabels24, exFlags24])
    rfl
